import Mathlib

/-!
Verification of `MW_Scripts.py` (seed-SQL generator).

This file gives a shallow embedding of the pure logic of the script:
the input/output data shapes, the prompt templating function, the
model-name fix-up, the certifier-list collection, the reply-cleaning and
validation pipeline of `generate_seed_sql`, the output file naming of
`write_outputs`, and the startup credential check.  External library
calls (the OpenAI client, pydantic JSON-text parsing) are modelled as
oracles passed in as arguments; everything the repository itself
computes is translated directly from the source.
-/

namespace MW

/-! ### Python string primitives used by the script -/

/-- Python whitespace test used by `str.strip()` (the ASCII whitespace
characters, which are the only ones occurring in the script's data). -/
def py_isspace (c : Char) : Bool :=
  (c = ' ') || (c = '\t') || (c = '\n') || (c = '\r') || (c = '\x0b') || (c = '\x0c')

/-- `str.strip()` on the underlying character list: drop whitespace from
the front, then from the back. -/
def py_strip_list (l : List Char) : List Char :=
  ((l.dropWhile py_isspace).reverse.dropWhile py_isspace).reverse

/-- Python `s.strip()`. -/
def py_strip (s : String) : String :=
  ⟨py_strip_list s.data⟩

/-- Python `s.startswith(p)`. -/
def py_startswith (s p : String) : Bool :=
  p.data.isPrefixOf s.data

/-- Python `s.replace(pat, rep, 1)` on character lists: scan left to
right and replace the first occurrence of `pat` (the script only uses a
non-empty pattern, `"pgt-"`). -/
def replace_first : List Char → List Char → List Char → List Char
  | [], _, _ => []
  | c :: cs, pat, rep =>
    if pat.isPrefixOf (c :: cs) then rep ++ List.drop pat.length (c :: cs)
    else c :: replace_first cs pat rep

/-- Python `s.replace(pat, rep, 1)`. -/
def py_replace_one (s pat rep : String) : String :=
  ⟨replace_first s.data pat.data rep.data⟩

/-- Python `s.split(sep)` for a single-character separator (the script
only splits on `","` and `"\n"`): split at every occurrence, keeping
empty pieces. -/
def py_split_char (sep : Char) : List Char → List (List Char)
  | [] => [[]]
  | c :: cs =>
    if c = sep then [] :: py_split_char sep cs
    else
      match py_split_char sep cs with
      | [] => [[c]]
      | h :: t => (c :: h) :: t

/-- Python `s.split(sep)` for a one-character separator string. -/
def py_split (s : String) (sep : Char) : List String :=
  (py_split_char sep s.data).map (fun l => ⟨l⟩)

/-- Python `sep.join(xs)`. -/
def py_join (sep : String) (xs : List String) : String :=
  match xs with
  | [] => ""
  | x :: rest => rest.foldl (fun acc y => acc ++ sep ++ y) x

/-! ### Input and output data shapes (lines 177-204 of the source) -/

/-- `PoolInput` dataclass (lines 177-182). -/
structure PoolInput where
  technical_skill : String
  level : String
  question_quantity : Int
  certifiers : List String
deriving DecidableEq

/-- `JobInput` dataclass (lines 185-188). -/
structure JobInput where
  name : String
  skills : List String
deriving DecidableEq

/-- `SqlTableInserts` pydantic model (lines 195-197): a table name and
its list of INSERT statements. -/
structure SqlTableInserts where
  table : String
  inserts : List String
deriving DecidableEq

/-- `SeedResponse` pydantic model (lines 200-204): required `dialect`,
`tables`, `full_sql`; `notes` has `default_factory=list`. -/
structure SeedResponse where
  dialect : String
  notes : List String
  tables : List SqlTableInserts
  full_sql : String
deriving DecidableEq

/-! ### Startup credential check (lines 1198-1247) -/

/-- Outcome of the `__main__` block: either report the missing
credential and `SystemExit(code)`, or launch the GUI. -/
inductive StartupResult where
  | exit_error (code : Nat)
  | launch_gui
deriving DecidableEq

/-- The `__main__` block (lines 1198-1247): read `OPENAI_API_KEY` from
the environment; `if not api_key` (i.e. the variable is absent, or its
value is the empty string, Python falsiness) report the error and exit
with status 1, otherwise call `main_gui()`. -/
def startup_check (openai_api_key : Option String) : StartupResult :=
  match openai_api_key with
  | none => .exit_error 1
  | some k => if k = "" then .exit_error 1 else .launch_gui

/-! ### Certifier collection (lines 235-242, 939-949, 1101-1104) -/

/-- `ask_list` (lines 235-242): split the raw text on commas, strip each
piece, keep the non-empty ones. -/
def ask_list (raw : String) : List String :=
  ((py_split raw ',').map py_strip).filter (fun x => x ≠ "")

/-- CLI certifier collection (lines 1101-1103): `ask_list`, then default
to `["certifier1@example.com"]` when empty. -/
def cli_pool_certs (raw : String) : List String :=
  let certs := ask_list raw
  if certs = [] then ["certifier1@example.com"] else certs

/-- CLI `PoolInput` construction (line 1104). -/
def cli_pool (skill level : String) (q_qty : Int) (raw_certs : String) : PoolInput :=
  ⟨skill, level, q_qty, cli_pool_certs raw_certs⟩

/-- GUI certifier collection (lines 941-943): the same comma split,
strip and filter, inline, with the same default. -/
def gui_pool_certs (raw : String) : List String :=
  let certs := ((py_split raw ',').map py_strip).filter (fun c => c ≠ "")
  if certs = [] then ["certifier1@example.com"] else certs

/-- GUI `PoolInput` construction (lines 944-949). -/
def gui_pool (skill level : String) (quantity : Int) (raw_certs : String) : PoolInput :=
  ⟨skill, level, quantity, gui_pool_certs raw_certs⟩

/-- The GUI loop over `pools_data` rows (lines 940-949): each row holds
the skill, level, quantity and raw certifier text of one form entry. -/
def gui_collect_pools (rows : List (String × String × Int × String)) : List PoolInput :=
  rows.map (fun r => gui_pool r.1 r.2.1 r.2.2.1 r.2.2.2)

/-! ### Model-name fix-up (lines 928-932 GUI, 1071-1074 CLI) -/

/-- GUI model-name correction (lines 930-932): if the name starts with
`pgt-`, replace the first occurrence of `pgt-` by `gpt-`. -/
def gui_fix_model (model : String) : String :=
  if py_startswith model ("pgt-") then py_replace_one model ("pgt-") ("gpt-") else model

/-- CLI model-name correction (lines 1072-1074): identical test and
replacement (the CLI additionally prints a console notice). -/
def cli_fix_model (model : String) : String :=
  if py_startswith model ("pgt-") then py_replace_one model ("pgt-") ("gpt-") else model

/-! ### `generate_seed_sql` (lines 329-412) -/

/-- A raised Python `Exception`, identified by its message. -/
inductive PyExc where
  | exc (msg : String)
deriving DecidableEq

/-- The two OpenAI API entry points the function may call. -/
inductive ApiCall where
  | parse_call
  | create_call
deriving DecidableEq

/-- Python `xs[1:-1]` on a list. -/
def drop_first_last (xs : List String) : List String :=
  (xs.drop 1).dropLast

/-- Reply cleaning in method 2 (lines 379-390): strip the text, remove a
leading markdown code fence (dropping the first and last line), and when
both braces occur narrow to the substring from the first opening brace
to the last closing brace (`find`/`rfind`). -/
def clean_reply (s : String) : String :=
  let s1 := py_strip s
  let s2 :=
    if py_startswith s1 ("```json") then py_join ("\n") (drop_first_last (py_split s1 '\n'))
    else if py_startswith s1 ("```") then py_join ("\n") (drop_first_last (py_split s1 '\n'))
    else s1
  if (s2.data.contains '\x7b') && (s2.data.contains '\x7d') then
    let start := s2.data.findIdx (fun c => c = '\x7b')
    let stop := s2.data.length - 1 - (s2.data.reverse.findIdx (fun c => c = '\x7d'))
    ⟨(s2.data.take (stop + 1)).drop start⟩
  else s2

/-- Method 2 of `generate_seed_sql` (lines 360-412): the single
`chat.completions.create` fallback call.  `create_result` is the
library call's outcome (an exception, or the reply's `message.content`,
which may be `None`); `validate` is pydantic's
`SeedResponse.model_validate_json`.  A falsy content raises
`ValueError`; a validation failure propagates (the function's final
`except` clause only prints a panel and re-raises). -/
def fallback_create (create_result : Except PyExc (Option String))
    (validate : String → Except PyExc SeedResponse) : Except PyExc SeedResponse :=
  match create_result with
  | .error e => .error e
  | .ok none => .error (.exc ("La respuesta de OpenAI está vacía"))
  | .ok (some s) =>
    if s = "" then .error (.exc ("La respuesta de OpenAI está vacía"))
    else validate (clean_reply s)

/-- `generate_seed_sql` (lines 329-412), with the two API calls as
oracles.  Method 1 (`beta.chat.completions.parse`, lines 341-351) is
tried first; on success its parsed `SeedResponse` is returned.  Both
`except` clauses (lines 352-358) fall through to method 2, so any
exception from the parse call leads to exactly one fallback call.  The
second component is the trace of API calls made. -/
def generate_seed_sql (parse_result : Except PyExc SeedResponse)
    (create_result : Except PyExc (Option String))
    (validate : String → Except PyExc SeedResponse) :
    Except PyExc SeedResponse × List ApiCall :=
  match parse_result with
  | .ok parsed => (.ok parsed, [.parse_call])
  | .error _ => (fallback_create create_result validate, [.parse_call, .create_call])

/-! ### `write_outputs` (lines 415-454) -/

/-- `safe_name` in `write_outputs` (line 429): `t.table.replace(".", "_")`,
every dot replaced by an underscore. -/
def normalize_table (name : String) : String :=
  ⟨name.data.map (fun c => if c = '.' then '_' else c)⟩

/-- The per-table file name `f"\x7bout_prefix\x7d__\x7bsafe_name\x7d.sql"`
(line 430). -/
def table_file (pre name : String) : String :=
  pre ++ "__" ++ normalize_table name ++ ".sql"

/-- The names of the files `write_outputs` opens and writes, in order
(lines 417, 422, 428-433): the JSON dump, the consolidated SQL file, and
one SQL file per entry of `seed.tables`. -/
def output_files (seed : SeedResponse) (pre : String) : List String :=
  (pre ++ ".json") :: (pre ++ ".sql") :: seed.tables.map (fun t => table_file pre t.table)

/-! ### Pydantic validation of `SeedResponse` (lines 195-204, 392) -/

/-- A parsed JSON value (the argument of pydantic validation after JSON
text parsing). -/
inductive PyJson where
  | str (s : String)
  | num (n : Int)
  | boolean (b : Bool)
  | null
  | arr (items : List PyJson)
  | obj (fields : List (String × PyJson))

/-- A JSON string, as required for a pydantic `str` field. -/
def as_str : PyJson → Option String
  | .str s => some s
  | _ => none

/-- A JSON array of strings, as required for `List[str]`. -/
def decode_str_list : PyJson → Option (List String)
  | .arr xs => xs.mapM as_str
  | _ => none

/-- Validation of one `SqlTableInserts` object (lines 195-197): required
`table : str` and `inserts : List[str]`; unknown keys are ignored
(pydantic's default). -/
def decode_table : PyJson → Option SqlTableInserts
  | .obj fs => do
      let t ← (fs.lookup ("table")).bind as_str
      let ins ← (fs.lookup ("inserts")).bind decode_str_list
      pure ⟨t, ins⟩
  | _ => none

/-- Validation of a `SeedResponse` object (lines 200-204), the model
behind `SeedResponse.model_validate_json` and the `parse` call's
`response_format`: `dialect : str`, `tables : List[SqlTableInserts]` and
`full_sql : str` are required (`Field(...)`), `notes : List[str]` has
`default_factory=list`, so it defaults to `[]` when the key is absent;
any other key is ignored. -/
def model_validate (j : PyJson) : Except PyExc SeedResponse :=
  match j with
  | .obj fs =>
    match (fs.lookup ("dialect")).bind as_str,
        (fs.lookup ("tables")).bind (fun tj =>
          match tj with
          | .arr ts => ts.mapM decode_table
          | _ => none),
        (fs.lookup ("full_sql")).bind as_str with
    | some d, some ts, some fsql =>
      match fs.lookup ("notes") with
      | none => .ok ⟨d, [], ts, fsql⟩
      | some nj =>
        match decode_str_list nj with
        | some ns => .ok ⟨d, ns, ts, fsql⟩
        | none => .error (.exc ("validation error"))
    | _, _, _ => .error (.exc ("validation error"))
  | _ => .error (.exc ("validation error"))

/-! ### `build_prompt` (lines 254-323) -/

/-- One hexadecimal digit, lowercase, as produced by `json.dumps`. -/
def json_hex_digit (n : Nat) : Char :=
  if n < 10 then Char.ofNat (48 + n) else Char.ofNat (87 + n)

/-- Escaping of one character inside a JSON string literal, as done by
`json.dumps(..., ensure_ascii=False)`: quote, backslash and control
characters are escaped, everything else is kept verbatim. -/
def json_escape_char (c : Char) : String :=
  if c = '"' then "\\\""
  else if c = '\\' then "\\\\"
  else if c = '\n' then "\\n"
  else if c = '\r' then "\\r"
  else if c = '\t' then "\\t"
  else if c = '\x08' then "\\b"
  else if c = '\x0c' then "\\f"
  else if c.toNat < 32 then
    "\\u00" ++ String.mk [json_hex_digit (c.toNat / 16), json_hex_digit (c.toNat % 16)]
  else String.singleton c

/-- A JSON string literal as produced by `json.dumps(...,
ensure_ascii=False)`. -/
def json_escape_string (s : String) : String :=
  "\"" ++ String.join (s.data.map json_escape_char) ++ "\""

/-- The indentation produced by `json.dumps(..., indent=2)` at nesting
level `lvl`. -/
def json_indent (lvl : Nat) : String :=
  String.mk (List.replicate (2 * lvl) ' ')

/-- `json.dumps` of a list of strings at nesting level `lvl` with
`indent=2`. -/
def dumps_str_list (xs : List String) (lvl : Nat) : String :=
  if xs = [] then "[]"
  else "[\n" ++ py_join (",\n") (xs.map (fun x => json_indent (lvl + 1) ++ json_escape_string x))
    ++ "\n" ++ json_indent lvl ++ "]"

/-- `json.dumps` of one element of `pools_json` (lines 263-271): the
dict `\x7b"technical_skill", "level", "question_quantity",
"certifiers"\x7d` in insertion order, rendered with `indent=2` at
nesting level `lvl`. -/
def dumps_pool_obj (p : PoolInput) (lvl : Nat) : String :=
  "\x7b\n"
  ++ json_indent (lvl + 1) ++ "\"technical_skill\": " ++ json_escape_string p.technical_skill ++ ",\n"
  ++ json_indent (lvl + 1) ++ "\"level\": " ++ json_escape_string p.level ++ ",\n"
  ++ json_indent (lvl + 1) ++ "\"question_quantity\": " ++ toString p.question_quantity ++ ",\n"
  ++ json_indent (lvl + 1) ++ "\"certifiers\": " ++ dumps_str_list p.certifiers (lvl + 1) ++ "\n"
  ++ json_indent lvl ++ "\x7d"

/-- `json.dumps(pools_json, ensure_ascii=False, indent=2)` (line 317). -/
def dumps_pools (pools : List PoolInput) : String :=
  if pools = [] then "[]"
  else "[\n" ++ py_join (",\n") (pools.map (fun p => json_indent 1 ++ dumps_pool_obj p 1)) ++ "\n]"

/-- `json.dumps` of one element of `jobs_json` (line 272): the dict
`\x7b"name", "skills"\x7d` rendered with `indent=2`. -/
def dumps_job_obj (j : JobInput) (lvl : Nat) : String :=
  "\x7b\n"
  ++ json_indent (lvl + 1) ++ "\"name\": " ++ json_escape_string j.name ++ ",\n"
  ++ json_indent (lvl + 1) ++ "\"skills\": " ++ dumps_str_list j.skills (lvl + 1) ++ "\n"
  ++ json_indent lvl ++ "\x7d"

/-- `json.dumps(jobs_json, ensure_ascii=False, indent=2)` (line 320). -/
def dumps_jobs (jobs : List JobInput) : String :=
  if jobs = [] then "[]"
  else "[\n" ++ py_join (",\n") (jobs.map (fun j => json_indent 1 ++ dumps_job_obj j 1)) ++ "\n]"

/-- Python `str(b).lower()` for a bool (line 322). -/
def py_bool_str (b : Bool) : String :=
  if b then "true" else "false"

/-- `id_type` and `id_notes` of `build_prompt` (lines 274-283): the ID
type named in the prompt per dialect and UUID flag, together with the
dialect note (the final branch covers every non-sqlserver, non-postgres
dialect, i.e. mysql). -/
def id_type_and_notes (dialect : String) (use_uuid : Bool) : String × String :=
  if dialect = "sqlserver" then
    ((if use_uuid then "UNIQUEIDENTIFIER" else "IDENTITY(1,1)"),
      "Para SQL Server: usa IDENTITY(1,1) para autoincrement, UNIQUEIDENTIFIER para UUID. Opcionalmente puedes usar corchetes [nombre] para identificadores.")
  else if dialect = "postgres" then
    ((if use_uuid then "UUID" else "SERIAL"),
      "Para PostgreSQL: usa SERIAL para autoincrement, UUID para UUIDs.")
  else
    ((if use_uuid then "CHAR(36)" else "AUTO_INCREMENT"),
      "Para MySQL: usa AUTO_INCREMENT o CHAR(36) para UUIDs.")

/-- The fixed text of the f-string template (lines 285-299) from its
start up to the `- Dialecto: ` interpolation point. -/
def tpl_head : String :=
  "Eres un generador de SEED SQL para una app de reclutamiento.\n\nOBJETIVO:\nCon los datos de entrada, genera INSERTs SQL (sin ejecutar) para poblar:\n- question_pools\n- questions\n- question_pools_certifiers (si aplica: user_id opcional; usa nombres como referencia si no hay users)\n- question_validates (puede ser inicial: status=\x27pending\x27)\n- job_positions\n- job_positions_skills\nY opcionalmente (si include_roles=true):\n- roles, permissions, role_has_permissions, model_has_roles\n\nREGLAS:\n- Dialecto: "

/-- The fixed template text (lines 303-316) between the `id_notes` line
and the pools JSON dump. -/
def tpl_rules : String :=
  "  Si es UUID, genera UUIDs consistentes y reutilízalos en FKs.\n- Ordena por dependencias (primero catálogos/pools, luego preguntas, etc.)\n- Genera mínimos datos pero completos para que la app funcione:\n  * Para cada pool, crea N preguntas (N=question_quantity). Opciones tipo ABCD en JSON y una correcta.\n  * Para certificadores: crea registros en question_pools_certifiers por cada certifier asignado al pool.\n  * Crea question_validates para cada pregunta y certifier (status=\x27pending\x27).\n  * Para job_positions: crea puestos indicados y asocia skills mediante job_positions_skills apuntando a pools existentes\n    (si un puesto incluye skill que no existe, crea el pool por defecto en nivel MEDIO con 5 preguntas).\n- No uses instrucciones DDL (solo INSERTs).\n- Devuelve:\n  1) tables[] con inserts por tabla\n  2) full_sql consolidado\n\nDATOS DE ENTRADA (POOLS):\n"

/-- The fixed template text (line 319) before the jobs JSON dump. -/
def tpl_puestos : String :=
  "\n\nDATOS DE ENTRADA (PUESTOS):\n"

/-- The interpolated template (lines 285-323) up to the final
`include_roles = ` interpolation. -/
def prompt_front (dialect : String) (use_uuid : Bool)
    (pools : List PoolInput) (jobs : List JobInput) : String :=
  tpl_head ++ dialect ++ "\n"
  ++ "- IDs: " ++ (id_type_and_notes dialect use_uuid).1 ++ "\n"
  ++ "  " ++ (id_type_and_notes dialect use_uuid).2 ++ "\n"
  ++ tpl_rules
  ++ dumps_pools pools
  ++ tpl_puestos
  ++ dumps_jobs jobs
  ++ "\n\n" ++ "include_roles = "

/-- The full interpolated f-string body between the leading and the
trailing newline of the triple-quoted template. -/
def prompt_core (dialect : String) (use_uuid : Bool)
    (pools : List PoolInput) (jobs : List JobInput) (include_roles : Bool) : String :=
  prompt_front dialect use_uuid pools jobs ++ py_bool_str include_roles

/-- `build_prompt` (lines 254-323): the triple-quoted f-string starts
with a newline and ends with a newline, and `.strip()` is applied to the
result. -/
def build_prompt (dialect : String) (use_uuid : Bool)
    (pools : List PoolInput) (jobs : List JobInput) (include_roles : Bool) : String :=
  py_strip ("\n" ++ prompt_core dialect use_uuid pools jobs include_roles ++ "\n")

/-- The GUI `do_generate` prompt construction (line 965): the collected
dialect, UUID flag, pools, jobs and roles flag are passed positionally
to `build_prompt`. -/
def do_generate_prompt (dialect : String) (use_uuid : Bool)
    (pools : List PoolInput) (jobs : List JobInput) (include_roles : Bool) : String :=
  build_prompt dialect use_uuid pools jobs include_roles

/-- The CLI `main` prompt construction (line 1144): the same positional
call to `build_prompt`. -/
def main_cli_prompt (dialect : String) (use_uuid : Bool)
    (pools : List PoolInput) (jobs : List JobInput) (include_roles : Bool) : String :=
  build_prompt dialect use_uuid pools jobs include_roles

/-- `x` occurs as a contiguous substring of `s`. -/
def occursIn (x s : String) : Prop :=
  ∃ a b, s = a ++ x ++ b

/-! ### Theorems for claims C3, C9, C10 -/

/-- C3 (counterexample): the claim says that whenever `OPENAI_API_KEY`
is set the startup check passes and the GUI is launched; but when the
variable is set to the empty string the code's `if not api_key` treats
it as missing and exits with status 1, so the GUI is not launched. -/
theorem startup_check_claim_counterexample :
    ¬ (startup_check (some "") = StartupResult.launch_gui) := by
  decide

/-- C3 (amended): when `OPENAI_API_KEY` is unset, or set to the empty
string, the program reports the missing credential and terminates with
exit status 1 before launching the GUI; when it is set to a non-empty
value the startup check passes and the GUI is launched. -/
theorem startup_check_amended (env : Option String) :
    (env = none → startup_check env = StartupResult.exit_error 1) ∧
    (env = some "" → startup_check env = StartupResult.exit_error 1) ∧
    (∀ k, env = some k → k ≠ "" → startup_check env = StartupResult.launch_gui) := by
  refine ⟨?_, ?_, ?_⟩
  · intro h; subst h; rfl
  · intro h; subst h; rfl
  · intro k h hk; subst h
    simp [startup_check, hk]

/-- C3 (witness): the amended theorem evaluated at a concrete non-empty
key, at the empty string and at an unset variable. -/
theorem startup_check_amended_witness :
    startup_check (some "sk-abc") = StartupResult.launch_gui ∧
    startup_check (some "") = StartupResult.exit_error 1 ∧
    startup_check none = StartupResult.exit_error 1 :=
  ⟨(startup_check_amended (some "sk-abc")).2.2 "sk-abc" rfl (by decide),
   (startup_check_amended (some "")).2.1 rfl,
   (startup_check_amended none).1 rfl⟩

/-- C9: in both the CLI and the GUI collection path, the comma-separated
certifier text is split into trimmed non-empty entries, the empty result
is replaced by `["certifier1@example.com"]`, and hence every `PoolInput`
handed to `build_prompt` carries a non-empty certifier list. -/
theorem pool_certifiers_nonempty (skill level : String) (q : Int) (raw : String)
    (rows : List (String × String × Int × String)) :
    0 < (cli_pool skill level q raw).certifiers.length ∧
    0 < (gui_pool skill level q raw).certifiers.length ∧
    (∀ p, p ∈ gui_collect_pools rows → 0 < p.certifiers.length) := by
  have hcli : ∀ r : String, 0 < (cli_pool_certs r).length := by
    intro r
    unfold cli_pool_certs
    dsimp only
    split
    · simp
    · next h => exact List.length_pos.mpr h
  have hgui : ∀ r : String, 0 < (gui_pool_certs r).length := by
    intro r
    unfold gui_pool_certs
    dsimp only
    split
    · simp
    · next h => exact List.length_pos.mpr h
  refine ⟨hcli raw, hgui raw, ?_⟩
  intro p hp
  rcases List.mem_map.mp hp with ⟨r, _, hr⟩
  rw [← hr]
  exact hgui r.2.2.2

/-- C9 (witness): the collected pools of a concrete GUI form (one row
with blank certifier text, one with two comma-separated entries) all
have non-empty certifier lists, via the theorem. -/
theorem pool_certifiers_nonempty_witness :
    0 < (MW.cli_pool "SQL" "BAJO" 5 "").certifiers.length ∧
    (∀ p, p ∈ gui_collect_pools [("SQL", "BAJO", 5, ""), ("Java", "ALTO", 3, "a@x.com, b@x.com")] →
      0 < p.certifiers.length) :=
  ⟨(pool_certifiers_nonempty "SQL" "BAJO" 5 "" []).1,
   (pool_certifiers_nonempty "SQL" "BAJO" 5 ""
      [("SQL", "BAJO", 5, ""), ("Java", "ALTO", 3, "a@x.com, b@x.com")]).2.2⟩

/-- C10: in both paths a model name beginning with `pgt-` has exactly
its first occurrence of `pgt-` replaced by `gpt-`, and a model name not
beginning with `pgt-` is passed through unchanged. -/
theorem fix_model_pgt (t m : String) :
    gui_fix_model ("pgt-" ++ t) = "gpt-" ++ t ∧
    cli_fix_model ("pgt-" ++ t) = "gpt-" ++ t ∧
    (py_startswith m ("pgt-") = false → gui_fix_model m = m ∧ cli_fix_model m = m) := by
  have hpre : py_startswith ("pgt-" ++ t) ("pgt-") = true := by
    show List.isPrefixOf ['p', 'g', 't', '-'] ('p' :: 'g' :: 't' :: '-' :: t.data) = true
    simp [List.isPrefixOf]
  have hrep : py_replace_one ("pgt-" ++ t) ("pgt-") ("gpt-") = "gpt-" ++ t := by
    apply String.ext
    show replace_first ('p' :: 'g' :: 't' :: '-' :: t.data) ['p', 'g', 't', '-'] ['g', 'p', 't', '-']
        = 'g' :: 'p' :: 't' :: '-' :: t.data
    rw [replace_first]
    have hc : List.isPrefixOf ['p', 'g', 't', '-'] ('p' :: 'g' :: 't' :: '-' :: t.data) = true := by
      simp [List.isPrefixOf]
    simp [hc]
  refine ⟨?_, ?_, ?_⟩
  · simp [gui_fix_model, hpre, hrep]
  · simp [cli_fix_model, hpre, hrep]
  · intro hm
    constructor
    · simp [gui_fix_model, hm]
    · simp [cli_fix_model, hm]

/-- C10 (witness): `pgt-4o-mini` becomes `gpt-4o-mini` and
`gpt-4o-mini` is unchanged, in both paths, via the theorem. -/
theorem fix_model_pgt_witness :
    gui_fix_model ("pgt-" ++ "4o-mini") = "gpt-" ++ "4o-mini" ∧
    gui_fix_model "gpt-4o-mini" = "gpt-4o-mini" ∧
    cli_fix_model "gpt-4o-mini" = "gpt-4o-mini" :=
  ⟨(fix_model_pgt "4o-mini" "gpt-4o-mini").1,
   ((fix_model_pgt "4o-mini" "gpt-4o-mini").2.2 (by decide)).1,
   ((fix_model_pgt "4o-mini" "gpt-4o-mini").2.2 (by decide)).2⟩

/-- C2: `generate_seed_sql` is exactly try-A-else-B: the structured
parse call is always made once; the fallback `create` call is made
exactly once if and only if the parse call raises, and never otherwise;
on parse success the parsed value is returned directly; a failure of the
fallback is raised to the caller; no call is retried. -/
theorem generate_seed_sql_try_then_fallback
    (p : Except PyExc SeedResponse) (c : Except PyExc (Option String))
    (v : String → Except PyExc SeedResponse) :
    ((generate_seed_sql p c v).2.count ApiCall.parse_call = 1) ∧
    ((generate_seed_sql p c v).2.count ApiCall.create_call = if p.isOk then 0 else 1) ∧
    (∀ r, p = .ok r → generate_seed_sql p c v = (.ok r, [ApiCall.parse_call])) ∧
    (∀ e, p = .error e →
      (generate_seed_sql p c v).2 = [ApiCall.parse_call, ApiCall.create_call] ∧
      (generate_seed_sql p c v).1 = fallback_create c v) ∧
    (∀ e e2, p = .error e → c = .error e2 → (generate_seed_sql p c v).1 = .error e2) := by
  cases p with
  | ok r0 =>
    refine ⟨?_, ?_, ?_, ?_, ?_⟩
    · show List.count ApiCall.parse_call [ApiCall.parse_call] = 1
      decide
    · show List.count ApiCall.create_call [ApiCall.parse_call] = 0
      decide
    · intro r hr; cases hr; rfl
    · intro e he; simp at he
    · intro e e2 he _; simp at he
  | error e0 =>
    refine ⟨?_, ?_, ?_, ?_, ?_⟩
    · show List.count ApiCall.parse_call [ApiCall.parse_call, ApiCall.create_call] = 1
      decide
    · show List.count ApiCall.create_call [ApiCall.parse_call, ApiCall.create_call] = 1
      decide
    · intro r hr; simp at hr
    · intro e _; exact ⟨rfl, rfl⟩
    · intro e e2 _ hc; cases hc; rfl

/-- C2 (witness): with a failing parse call, a fallback reply `"x"` and
a validator that rejects it, the theorem yields the concrete trace and
the propagated error. -/
theorem generate_seed_sql_try_then_fallback_witness :
    (generate_seed_sql (.error (.exc ("boom"))) (.ok (some ("x")))
        (fun _ => .error (.exc ("bad")))).2 = [ApiCall.parse_call, ApiCall.create_call] ∧
    (generate_seed_sql (.ok ⟨"mysql", [], [], "SELECT 1;"⟩) (.ok (some ("x")))
        (fun _ => .error (.exc ("bad"))))
      = (.ok ⟨"mysql", [], [], "SELECT 1;"⟩, [ApiCall.parse_call]) :=
  ⟨((generate_seed_sql_try_then_fallback (.error (.exc ("boom"))) (.ok (some ("x")))
      (fun _ => .error (.exc ("bad")))).2.2.2.1 (.exc ("boom")) rfl).1,
   (generate_seed_sql_try_then_fallback (.ok ⟨"mysql", [], [], "SELECT 1;"⟩) (.ok (some ("x")))
      (fun _ => .error (.exc ("bad")))).2.2.1 _ rfl⟩

/-- C6: the fallback raises on an empty (or `None`) reply; otherwise its
result is exactly the validator applied to the cleaned reply text
(strip, fence removal, brace narrowing), so a non-conforming reply
raises and a conforming reply yields the parsed `SeedResponse`. -/
theorem fallback_reply_validation
    (v : String → Except PyExc SeedResponse) (s : String) :
    (fallback_create (.ok none) v = .error (.exc ("La respuesta de OpenAI está vacía"))) ∧
    (fallback_create (.ok (some (""))) v = .error (.exc ("La respuesta de OpenAI está vacía"))) ∧
    (s ≠ "" → fallback_create (.ok (some s)) v = v (clean_reply s)) ∧
    (∀ r, s ≠ "" → v (clean_reply s) = .ok r → fallback_create (.ok (some s)) v = .ok r) ∧
    (∀ e, s ≠ "" → v (clean_reply s) = .error e → fallback_create (.ok (some s)) v = .error e) ∧
    (∀ e, (generate_seed_sql (.error e) (.ok (some s)) v).1
        = if s = "" then .error (.exc ("La respuesta de OpenAI está vacía"))
          else v (clean_reply s)) := by
  have hmain : s ≠ "" → fallback_create (.ok (some s)) v = v (clean_reply s) := by
    intro hs
    simp [fallback_create, hs]
  refine ⟨rfl, rfl, hmain, ?_, ?_, ?_⟩
  · intro r hs hv; rw [hmain hs, hv]
  · intro e hs hv; rw [hmain hs, hv]
  · intro e
    by_cases hs : s = ""
    · subst hs; rfl
    · rw [if_neg hs]
      show fallback_create (.ok (some s)) v = v (clean_reply s)
      exact hmain hs

/-- C6 (witness): a fenced JSON-object reply is cleaned to the bare
object and accepted by a validator that recognises it; a `None` reply
raises the empty-reply error.  Both follow from the theorem. -/
theorem fallback_reply_validation_witness :
    fallback_create (.ok (some ("```json\n\x7b \"a\": 1 \x7d\n```")))
        (fun t => if t = ("\x7b \"a\": 1 \x7d")
          then .ok ⟨"mysql", [], [], "SELECT 1;"⟩ else .error (.exc ("no json")))
      = .ok ⟨"mysql", [], [], "SELECT 1;"⟩ ∧
    fallback_create (.ok none)
        (fun t => if t = ("\x7b \"a\": 1 \x7d")
          then .ok ⟨"mysql", [], [], "SELECT 1;"⟩ else .error (.exc ("no json")))
      = .error (.exc ("La respuesta de OpenAI está vacía")) :=
  ⟨(fallback_reply_validation
      (fun t => if t = ("\x7b \"a\": 1 \x7d")
        then .ok ⟨"mysql", [], [], "SELECT 1;"⟩ else .error (.exc ("no json")))
      ("```json\n\x7b \"a\": 1 \x7d\n```")).2.2.2.1
      ⟨"mysql", [], [], "SELECT 1;"⟩ (by decide) rfl,
   (fallback_reply_validation
      (fun t => if t = ("\x7b \"a\": 1 \x7d")
        then .ok ⟨"mysql", [], [], "SELECT 1;"⟩ else .error (.exc ("no json")))
      ("```json\n\x7b \"a\": 1 \x7d\n```")).1⟩

/-- Appending the same front string is injective. -/
theorem append_right_inj (p a b : String) (h : p ++ a = p ++ b) : a = b := by
  apply String.ext
  have h2 : p.data ++ a.data = p.data ++ b.data := congrArg String.data h
  exact List.append_cancel_left h2

/-- Appending the same back string is injective. -/
theorem append_left_inj (sfx a b : String) (h : a ++ sfx = b ++ sfx) : a = b := by
  apply String.ext
  have h2 : a.data ++ sfx.data = b.data ++ sfx.data := congrArg String.data h
  exact List.append_cancel_right h2

/-- String concatenation is associative. -/
theorem str_append_assoc (a b c : String) : (a ++ b) ++ c = a ++ (b ++ c) := by
  apply String.ext
  have h : (a.data ++ b.data) ++ c.data = a.data ++ (b.data ++ c.data) := List.append_assoc _ _ _
  exact h

/-- C1: `write_outputs` writes one `.json` file, one consolidated `.sql`
file, and one per-table `.sql` file, so `tables.length + 2` file names
in total; the per-table name `pre ++ "__" ++ safe ++ ".sql"` is in the
list for every table; and the names are pairwise distinct whenever the
dot-to-underscore-normalised table names are pairwise distinct. -/
theorem write_outputs_file_names (seed : SeedResponse) (pre : String) :
    (output_files seed pre).length = seed.tables.length + 2 ∧
    (∀ t, t ∈ seed.tables → table_file pre t.table ∈ output_files seed pre) ∧
    ((seed.tables.map (fun t => normalize_table t.table)).Nodup →
      (output_files seed pre).Nodup) := by
  have tf_assoc : ∀ n : String,
      table_file pre n = pre ++ ("__" ++ (normalize_table n ++ ".sql")) := by
    intro n
    unfold table_file
    rw [str_append_assoc, str_append_assoc]
  have hjs : (pre ++ ".json") ≠ (pre ++ ".sql") := by
    intro h
    exact absurd (append_right_inj pre _ _ h) (by decide)
  have hjt : ∀ n : String, (pre ++ ".json") ≠ table_file pre n := by
    intro n h
    rw [tf_assoc] at h
    have h2 := append_right_inj pre _ _ h
    have h3 : (some '.' : Option Char) = some '_' :=
      congrArg (fun u : String => u.data.head?) h2
    exact absurd h3 (by decide)
  have hst : ∀ n : String, (pre ++ ".sql") ≠ table_file pre n := by
    intro n h
    rw [tf_assoc] at h
    have h2 := append_right_inj pre _ _ h
    have h3 : (some '.' : Option Char) = some '_' :=
      congrArg (fun u : String => u.data.head?) h2
    exact absurd h3 (by decide)
  have hinj : Function.Injective (fun n : String => pre ++ "__" ++ n ++ ".sql") := by
    intro a b h
    dsimp at h
    have h1 := append_left_inj ".sql" _ _ h
    exact append_right_inj _ _ _ h1
  have hmapeq : seed.tables.map (fun t => table_file pre t.table)
      = (seed.tables.map (fun t => normalize_table t.table)).map
          (fun n => pre ++ "__" ++ n ++ ".sql") := by
    rw [List.map_map]
    rfl
  refine ⟨?_, ?_, ?_⟩
  · simp [output_files]
  · intro t ht
    exact List.mem_cons_of_mem _ (List.mem_cons_of_mem _ (List.mem_map_of_mem _ ht))
  · intro hnd
    refine List.nodup_cons.mpr ⟨?_, List.nodup_cons.mpr ⟨?_, ?_⟩⟩
    · intro hmem
      rcases List.mem_cons.mp hmem with h | h
      · exact hjs h
      · rcases List.mem_map.mp h with ⟨t, _, hteq⟩
        exact hjt t.table hteq.symm
    · intro hmem
      rcases List.mem_map.mp hmem with ⟨t, _, hteq⟩
      exact hst t.table hteq.symm
    · rw [hmapeq]
      exact hnd.map hinj

/-- C1 (witness): for a concrete response with two tables (one with a
dotted name) and prefix `seed_output`, the four file names produced
are pairwise distinct, via the theorem. -/
theorem write_outputs_file_names_witness :
    (output_files ⟨"mysql", [], [⟨"question_pools", ["i1"]⟩, ⟨"app.users", ["i2"]⟩], "s"⟩
      "seed_output").length = 4 ∧
    (output_files ⟨"mysql", [], [⟨"question_pools", ["i1"]⟩, ⟨"app.users", ["i2"]⟩], "s"⟩
      "seed_output").Nodup :=
  ⟨(write_outputs_file_names ⟨"mysql", [], [⟨"question_pools", ["i1"]⟩, ⟨"app.users", ["i2"]⟩], "s"⟩
      "seed_output").1,
   (write_outputs_file_names ⟨"mysql", [], [⟨"question_pools", ["i1"]⟩, ⟨"app.users", ["i2"]⟩], "s"⟩
      "seed_output").2.2 (by decide)⟩

/-- C4: the output of a successful generation is exactly a
`SeedResponse`: validation requires `dialect`, `tables` (a list of
per-table INSERT batches) and `full_sql`, defaults `notes` to the empty
list when the key is absent, fails when a required key is missing, and
every accepted value consists of exactly these four fields; a successful
parse call returns that `SeedResponse` unchanged. -/
theorem seed_response_shape (fs : List (String × PyJson)) (d fsql : String)
    (tjs : List PyJson) (ts : List SqlTableInserts) (nj : PyJson) (ns : List String) :
    ((fs.lookup ("dialect")).bind as_str = some d →
      fs.lookup ("tables") = some (PyJson.arr tjs) →
      tjs.mapM decode_table = some ts →
      (fs.lookup ("full_sql")).bind as_str = some fsql →
      (fs.lookup ("notes") = none →
        model_validate (.obj fs) = .ok ⟨d, [], ts, fsql⟩) ∧
      (fs.lookup ("notes") = some nj → decode_str_list nj = some ns →
        model_validate (.obj fs) = .ok ⟨d, ns, ts, fsql⟩)) ∧
    (fs.lookup ("dialect") = none →
      model_validate (.obj fs) = .error (.exc ("validation error"))) ∧
    (fs.lookup ("tables") = none →
      model_validate (.obj fs) = .error (.exc ("validation error"))) ∧
    (fs.lookup ("full_sql") = none →
      model_validate (.obj fs) = .error (.exc ("validation error"))) ∧
    (∀ j r, model_validate j = .ok r →
      r = ⟨r.dialect, r.notes, r.tables, r.full_sql⟩) ∧
    (∀ (c : Except PyExc (Option String)) (v : String → Except PyExc SeedResponse)
      (r0 : SeedResponse), (generate_seed_sql (.ok r0) c v).1 = .ok r0) := by
  refine ⟨?_, ?_, ?_, ?_, ?_, ?_⟩
  · intro h1 h2 h3 h4
    have h3l : List.mapM.loop decode_table tjs [] = some ts := h3
    constructor
    · intro hn
      simp [model_validate, h1, h2, h3l, h4, hn]
    · intro hn hns
      simp [model_validate, h1, h2, h3l, h4, hn, hns]
  · intro h
    simp [model_validate, h]
  · intro h
    simp [model_validate, h]
  · intro h
    simp [model_validate, h]
  · intro j r _
    rfl
  · intro c v r0
    rfl

/-- C4 (witness): a concrete reply object carrying only the three
required keys validates to a `SeedResponse` whose `notes` is `[]`, via
the theorem. -/
theorem seed_response_shape_witness :
    model_validate (.obj [("dialect", PyJson.str ("mysql")),
        ("tables", PyJson.arr [PyJson.obj [("table", PyJson.str ("question_pools")),
          ("inserts", PyJson.arr [PyJson.str ("INSERT 1;")])]]),
        ("full_sql", PyJson.str ("INSERT 1;"))])
      = .ok ⟨"mysql", [], [⟨"question_pools", ["INSERT 1;"]⟩], "INSERT 1;"⟩ :=
  ((seed_response_shape [("dialect", PyJson.str ("mysql")),
      ("tables", PyJson.arr [PyJson.obj [("table", PyJson.str ("question_pools")),
        ("inserts", PyJson.arr [PyJson.str ("INSERT 1;")])]]),
      ("full_sql", PyJson.str ("INSERT 1;"))] "mysql" "INSERT 1;"
      [PyJson.obj [("table", PyJson.str ("question_pools")),
        ("inserts", PyJson.arr [PyJson.str ("INSERT 1;")])]]
      [⟨"question_pools", ["INSERT 1;"]⟩] PyJson.null []).1
    rfl rfl rfl rfl).1 rfl

/-- Stripping a list that is wrapped in single newlines and whose first
and last inner characters are not whitespace removes exactly the two
newlines. -/
theorem py_strip_list_wrap (c d : Char) (m : List Char)
    (hc : py_isspace c = false) (hd : py_isspace d = false) :
    py_strip_list ('\n' :: c :: (m ++ [d, '\n'])) = c :: (m ++ [d]) := by
  have hnl : py_isspace '\n' = true := rfl
  unfold py_strip_list
  rw [List.dropWhile_cons, hnl]
  simp only [if_true]
  rw [List.dropWhile_cons, hc]
  simp only [Bool.false_eq_true, if_false]
  have hrev : (c :: (m ++ [d, '\n'])).reverse = '\n' :: d :: (m.reverse ++ [c]) := by
    simp [List.reverse_cons, List.reverse_append]
  rw [hrev, List.dropWhile_cons, hnl]
  simp only [if_true]
  rw [List.dropWhile_cons, hd]
  simp only [Bool.false_eq_true, if_false]
  simp [List.reverse_cons, List.reverse_append, List.append_assoc]

/-- `.strip()` of the newline-wrapped template body removes exactly the
wrapping newlines when the body starts with `E` and ends with `e`. -/
theorem py_strip_newline_wrap (s : String) (h : ∃ m, s.data = 'E' :: (m ++ ['e'])) :
    py_strip ("\n" ++ s ++ "\n") = s := by
  obtain ⟨m, hm⟩ := h
  apply String.ext
  show py_strip_list (('\n' :: s.data) ++ ['\n']) = s.data
  rw [hm]
  have hshape : (('\n' :: ('E' :: (m ++ ['e']))) ++ ['\n'])
      = '\n' :: 'E' :: (m ++ ['e', '\n']) := by
    simp [List.append_assoc]
  rw [hshape, py_strip_list_wrap 'E' 'e' m rfl rfl]

/-- The interpolated template body always starts with `E` (from
`Eres...`) and ends with `e` (from `true`/`false`). -/
theorem prompt_core_shape (dialect : String) (u : Bool) (pools : List PoolInput)
    (jobs : List JobInput) (r : Bool) :
    ∃ m, (prompt_core dialect u pools jobs r).data = 'E' :: (m ++ ['e']) := by
  obtain ⟨l1, h1⟩ : ∃ l, (prompt_front dialect u pools jobs).data = 'E' :: l := ⟨_, rfl⟩
  obtain ⟨l2, h2⟩ : ∃ l, (py_bool_str r).data = l ++ ['e'] := by
    cases r
    · exact ⟨['f', 'a', 'l', 's'], rfl⟩
    · exact ⟨['t', 'r', 'u'], rfl⟩
  refine ⟨l1 ++ l2, ?_⟩
  show (prompt_front dialect u pools jobs).data ++ (py_bool_str r).data = _
  rw [h1, h2]
  simp [List.append_assoc]

/-- `build_prompt` is the template body itself: `.strip()` removes only
the wrapping newlines of the triple-quoted f-string. -/
theorem build_prompt_eq (dialect : String) (u : Bool) (pools : List PoolInput)
    (jobs : List JobInput) (r : Bool) :
    build_prompt dialect u pools jobs r = prompt_core dialect u pools jobs r :=
  py_strip_newline_wrap _ (prompt_core_shape dialect u pools jobs r)

/-- Appending the empty string on the right is the identity. -/
theorem str_append_empty (s : String) : s ++ "" = s := by
  apply String.ext
  show s.data ++ [] = s.data
  simp

/-- The characters of a concatenation. -/
theorem data_append (s t : String) : (s ++ t).data = s.data ++ t.data := rfl

/-- C5: `build_prompt` is a pure function of its five arguments whose
output states `- IDs: ` followed by `UNIQUEIDENTIFIER`/`IDENTITY(1,1)`
for sqlserver, `UUID`/`SERIAL` for postgres and
`CHAR(36)`/`AUTO_INCREMENT` for every other dialect string (according to
`use_uuid`), and embeds the pools and the jobs rendered as indented JSON
together with the line `include_roles = true|false` matching the flag. -/
theorem build_prompt_formatting (dialect : String) (u r : Bool)
    (pools : List PoolInput) (jobs : List JobInput) :
    occursIn ("- IDs: " ++ (id_type_and_notes dialect u).1 ++ "\n")
      (build_prompt dialect u pools jobs r) ∧
    (id_type_and_notes ("sqlserver") true).1 = "UNIQUEIDENTIFIER" ∧
    (id_type_and_notes ("sqlserver") false).1 = "IDENTITY(1,1)" ∧
    (id_type_and_notes ("postgres") true).1 = "UUID" ∧
    (id_type_and_notes ("postgres") false).1 = "SERIAL" ∧
    (dialect ≠ "sqlserver" → dialect ≠ "postgres" →
      (id_type_and_notes dialect u).1 = if u then "CHAR(36)" else "AUTO_INCREMENT") ∧
    occursIn (dumps_pools pools) (build_prompt dialect u pools jobs r) ∧
    occursIn (dumps_jobs jobs) (build_prompt dialect u pools jobs r) ∧
    occursIn ("include_roles = " ++ py_bool_str r) (build_prompt dialect u pools jobs r) := by
  refine ⟨?_, by decide, by decide, by decide, by decide, ?_, ?_, ?_, ?_⟩
  · refine ⟨tpl_head ++ dialect ++ "\n",
      "  " ++ (id_type_and_notes dialect u).2 ++ "\n" ++ tpl_rules ++ dumps_pools pools
        ++ tpl_puestos ++ dumps_jobs jobs ++ "\n\n" ++ "include_roles = " ++ py_bool_str r, ?_⟩
    rw [build_prompt_eq]
    apply String.ext
    simp only [prompt_core, prompt_front, data_append, List.append_assoc]
  · intro h1 h2
    simp [id_type_and_notes, h1, h2]
  · refine ⟨tpl_head ++ dialect ++ "\n" ++ "- IDs: " ++ (id_type_and_notes dialect u).1 ++ "\n"
      ++ "  " ++ (id_type_and_notes dialect u).2 ++ "\n" ++ tpl_rules,
      tpl_puestos ++ dumps_jobs jobs ++ "\n\n" ++ "include_roles = " ++ py_bool_str r, ?_⟩
    rw [build_prompt_eq]
    apply String.ext
    simp only [prompt_core, prompt_front, data_append, List.append_assoc]
  · refine ⟨tpl_head ++ dialect ++ "\n" ++ "- IDs: " ++ (id_type_and_notes dialect u).1 ++ "\n"
      ++ "  " ++ (id_type_and_notes dialect u).2 ++ "\n" ++ tpl_rules ++ dumps_pools pools
      ++ tpl_puestos, "\n\n" ++ "include_roles = " ++ py_bool_str r, ?_⟩
    rw [build_prompt_eq]
    apply String.ext
    simp only [prompt_core, prompt_front, data_append, List.append_assoc]
  · refine ⟨tpl_head ++ dialect ++ "\n" ++ "- IDs: " ++ (id_type_and_notes dialect u).1 ++ "\n"
      ++ "  " ++ (id_type_and_notes dialect u).2 ++ "\n" ++ tpl_rules ++ dumps_pools pools
      ++ tpl_puestos ++ dumps_jobs jobs ++ "\n\n", "", ?_⟩
    rw [build_prompt_eq]
    rw [str_append_empty]
    apply String.ext
    simp only [prompt_core, prompt_front, data_append, List.append_assoc]

/-- C5 (witness): for the mysql dialect with UUIDs the prompt's ID type
is `CHAR(36)`, and the concrete empty-form prompt contains its
`include_roles = false` line, via the theorem. -/
theorem build_prompt_formatting_witness :
    (id_type_and_notes ("mysql") true).1 = "CHAR(36)" ∧
    occursIn ("include_roles = " ++ py_bool_str false)
      (build_prompt ("mysql") true [] [] false) := by
  have h := build_prompt_formatting ("mysql") true false [] []
  refine ⟨?_, h.2.2.2.2.2.2.2.2⟩
  have h6 := h.2.2.2.2.2.1 (by decide) (by decide)
  simpa using h6

/-- C7: for identical collected field values the CLI path (`main`, line
1144) and the GUI path (`do_generate`, line 965) construct the very same
prompt string, since both invoke `build_prompt` with those arguments. -/
theorem cli_gui_same_prompt (dialect : String) (u : Bool) (pools : List PoolInput)
    (jobs : List JobInput) (r : Bool) :
    main_cli_prompt dialect u pools jobs r = do_generate_prompt dialect u pools jobs r := rfl

end MW
